import Mathlib

/-!
Shallow embedding of the two 2D physics backends of bevy-tnua:
the avian2d backend (`src/avian2d/src/lib.rs`) and the older rapier2d backend
(`src/src/backend_rapier2d.rs`).

Scalars are modelled as exact rationals standing in for the engine floats;
a possibly non-finite float vector (used as a sentinel by motor commands) is
modelled as a value together with an explicit finiteness flag. Entities are
natural numbers. The physics engines themselves (spatial queries, collision
detection, integration) are external collaborators: their outputs - the list
of candidate cast hits delivered nearest-first to the sensor callback, the
contact set of the current tick, and the per-entity component lookups - are
parameters of the embedded systems.
-/

namespace Tnua

/-- Planar vector (the backends' `Vector2`/`Vec2`), with exact rational
coordinates standing in for floats. -/
structure Vec2 where
  x : ℚ
  y : ℚ
deriving DecidableEq

/-- Spatial vector (`Vector3`/`Vec3`). -/
structure Vec3 where
  x : ℚ
  y : ℚ
  z : ℚ
deriving DecidableEq

def Vec2.add (a b : Vec2) : Vec2 := ⟨a.x + b.x, a.y + b.y⟩

def Vec2.sub (a b : Vec2) : Vec2 := ⟨a.x - b.x, a.y - b.y⟩

def Vec2.dot (a b : Vec2) : ℚ := a.x * b.x + a.y * b.y

def Vec2.smul (q : ℚ) (a : Vec2) : Vec2 := ⟨q * a.x, q * a.y⟩

def Vec2.zero : Vec2 := ⟨0, 0⟩

/-- Rust `Vec2::extend`: lift a planar vector to 3D with the given `z`. -/
def Vec2.extend (a : Vec2) (z : ℚ) : Vec3 := ⟨a.x, a.y, z⟩

def Vec3.zero : Vec3 := ⟨0, 0, 0⟩

def Vec3.add (a b : Vec3) : Vec3 := ⟨a.x + b.x, a.y + b.y, a.z + b.z⟩

/-- Rust `Vec3::truncate`: drop the `z` component. -/
def Vec3.truncate (a : Vec3) : Vec2 := ⟨a.x, a.y⟩

def Vec3.cross (a b : Vec3) : Vec3 :=
  ⟨a.y * b.z - a.z * b.y, a.z * b.x - a.x * b.z, a.x * b.y - a.y * b.x⟩

def Vec3.length_squared (a : Vec3) : ℚ := a.x * a.x + a.y * a.y + a.z * a.z

/-- Quaternion, as produced by `GlobalTransform::to_scale_rotation_translation`
and copied verbatim into the tracker. -/
structure Quat where
  x : ℚ
  y : ℚ
  z : ℚ
  w : ℚ
deriving DecidableEq

/-- Modelled from the spec: `TnuaToggle` is defined in the
`bevy_tnua_physics_integration_layer` crate, which belongs to this repository
but is absent from `src/`; the backends match on exactly these three
variants. -/
inductive TnuaToggle where
  | Disabled
  | SenseOnly
  | Enabled
deriving DecidableEq

/-- Modelled from the spec: the `Default` impl of `TnuaToggle` also lives in
the integration-layer crate, absent from `src/`. The spec describes the
component as optionally attached, with special behaviour only for `Disabled`
and `SenseOnly`; an entity without the component behaves normally, so the
default used by `unwrap_or_default()` is `Enabled`. -/
def TnuaToggle.default : TnuaToggle := .Enabled

/-- A float vector as stored in motor commands: `val` is its numeric value and
`finite` the result of `Vector3::is_finite` (floats are modelled as rationals,
so non-finiteness - the sentinel for "no command on this channel" - is an
explicit flag; `val` is only meaningful when `finite` is `true`). -/
structure FVec3 where
  val : Vec3
  finite : Bool
deriving DecidableEq

/-- Modelled from the spec: `TnuaMotor` lives in the integration-layer crate,
absent from `src/`. Per the spec's data model and the field accesses in
`apply_motors_system`, it has linear and angular parts, each with a `boost`
and an `acceleration` channel. -/
structure TnuaMotorPart where
  boost : FVec3
  acceleration : FVec3
deriving DecidableEq

structure TnuaMotor where
  lin : TnuaMotorPart
  ang : TnuaMotorPart
deriving DecidableEq

/-- The components the avian2d backend's `apply_motors_system` queries for one
entity (src/avian2d/src/lib.rs lines 328-338). -/
structure MotorEntity where
  motor : TnuaMotor
  linear_velocity : Vec2
  angular_velocity : ℚ
  mass : ℚ
  inertia : ℚ
  external_force : Vec2
  external_torque : ℚ
  tnua_toggle : Option TnuaToggle
deriving DecidableEq

/-- The `TnuaToggle::Enabled` part of the loop body of `apply_motors_system`
(src/avian2d/src/lib.rs lines 358-373): each of the four channels is applied
exactly when its value is finite; boosts add to the velocities, accelerations
overwrite the external force (`set_force`, scaled by mass) and the external
torque (`set_torque`, scaled by inertia). -/
def apply_motor_enabled (e : MotorEntity) : MotorEntity :=
  let e1 :=
    if e.motor.lin.boost.finite then
      { e with linear_velocity := e.linear_velocity.add e.motor.lin.boost.val.truncate }
    else e
  let e2 :=
    if e1.motor.lin.acceleration.finite then
      { e1 with external_force := Vec2.smul e1.mass e1.motor.lin.acceleration.val.truncate }
    else e1
  let e3 :=
    if e2.motor.ang.boost.finite then
      { e2 with angular_velocity := e2.angular_velocity + e2.motor.ang.boost.val.z }
    else e2
  if e3.motor.ang.acceleration.finite then
    { e3 with external_torque := e3.inertia * e3.motor.ang.acceleration.val.z }
  else e3

/-- The avian2d backend's `apply_motors_system` (src/avian2d/src/lib.rs lines
328-375) over the query's entities in iteration order. The
`Disabled | SenseOnly` arm zeroes the external force and then executes
`return`, which in Rust exits the whole system function - so every entity
after the first disabled or sense-only one is left untouched this tick. -/
def apply_motors_system : List MotorEntity → List MotorEntity
  | [] => []
  | e :: rest =>
    match e.tnua_toggle.getD TnuaToggle.default with
    | .Disabled | .SenseOnly => { e with external_force := Vec2.zero } :: rest
    | .Enabled => apply_motor_enabled e :: apply_motors_system rest

/-- `TnuaRigidBodyTracker` as constructed by the avian2d backend (struct
literal at src/avian2d/src/lib.rs lines 94-100). -/
structure TnuaRigidBodyTracker where
  translation : Vec3
  rotation : Quat
  velocity : Vec3
  angvel : Vec3
  gravity : Vec3
deriving DecidableEq

/-- The components `update_rigid_body_trackers_system` (avian2d backend)
queries for one entity: the transform (already decomposed into rotation and
translation), the engine velocities, the tracker to overwrite, and the
optional toggle. -/
structure TrackerEntity where
  transform_translation : Vec3
  transform_rotation : Quat
  linear_velocity : Vec2
  angular_velocity : ℚ
  tracker : TnuaRigidBodyTracker
  tnua_toggle : Option TnuaToggle
deriving DecidableEq

/-- The loop body of the avian2d `update_rigid_body_trackers_system`
(src/avian2d/src/lib.rs lines 76-102) for one entity: `Disabled` entities are
skipped (`continue`), otherwise the tracker is overwritten wholesale. -/
def update_rigid_body_tracker_entity (gravity : Vec2) (e : TrackerEntity) :
    TrackerEntity :=
  match e.tnua_toggle.getD TnuaToggle.default with
  | .Disabled => e
  | .SenseOnly | .Enabled =>
    { e with
      tracker :=
        { translation := e.transform_translation
          rotation := e.transform_rotation
          velocity := e.linear_velocity.extend 0
          angvel := ⟨0, 0, e.angular_velocity⟩
          gravity := gravity.extend 0 } }

/-- The avian2d `update_rigid_body_trackers_system` over the whole query
(the loop uses `continue`, so every entity is processed independently). -/
def update_rigid_body_trackers_system (gravity : Vec2)
    (es : List TrackerEntity) : List TrackerEntity :=
  es.map (update_rigid_body_tracker_entity gravity)

/-- The rapier2d backend's `TnuaRigidBodyTracker` (an older version of the
integration layer): only velocity, angular velocity and gravity, per the
struct literal at src/src/backend_rapier2d.rs lines 30-34. -/
structure RapierRigidBodyTracker where
  velocity : Vec3
  angvel : Vec3
  gravity : Vec3
deriving DecidableEq

/-- The loop body of the rapier2d `update_rigid_body_trackers_system`
(src/src/backend_rapier2d.rs lines 25-36): runs for every entity with a
velocity and a tracker (no toggle in that version). -/
def rapier_update_rigid_body_tracker (gravity : Vec2) (linvel : Vec2)
    (angvel : ℚ) : RapierRigidBodyTracker :=
  { velocity := linvel.extend 0
    angvel := ⟨0, 0, angvel⟩
    gravity := gravity.extend 0 }

/-- Avian's `CollisionLayers` (external collaborator, modelled per spec
section 6): two 32-bit membership/filter masks. -/
structure CollisionLayers where
  memberships : ℕ
  filters : ℕ
deriving DecidableEq

/-- Avian's `CollisionLayers::interacts_with`: each side's memberships must
intersect the other side's filters. -/
def CollisionLayers.interacts_with (a b : CollisionLayers) : Bool :=
  ((a.memberships &&& b.filters) != 0) && ((b.memberships &&& a.filters) != 0)

/-- Avian's `CollisionLayers::default()`: membership in the default layer
(mask 1) and filters ALL. -/
def CollisionLayers.default_value : CollisionLayers := ⟨1, 4294967295⟩

/-- One contact manifold of an avian `Contacts` record: the contact points
(only emptiness is inspected by the backend) and the two normals. -/
structure ContactManifold where
  contacts : List Vec2
  normal1 : Vec2
  normal2 : Vec2
deriving DecidableEq

/-- An avian `Contacts` record between a pair of entities. -/
structure Contacts where
  entity1 : ℕ
  entity2 : ℕ
  manifolds : List ContactManifold
deriving DecidableEq

/-- Avian's `Collisions::get(a, b)` (external collaborator): the contacts of
the pair, found regardless of the stored order of the two entities. -/
def Collisions.get (collisions : List Contacts) (a b : ℕ) : Option Contacts :=
  collisions.find? fun c =>
    (c.entity1 == a && c.entity2 == b) || (c.entity1 == b && c.entity2 == a)

/-- The false-positive suppression at the top of `apply_cast`
(src/avian2d/src/lib.rs lines 174-192, the issue-14 fix): the hit is spurious
when an existing contact between the owner and the hit entity has a manifold
with contact points whose normal - `normal2` when the owner is `entity1` of
the pair, `normal1` otherwise - has a dot product with the (truncated) cast
direction exceeding the sensor's cutoff. -/
def manifold_suppressed (collisions : List Contacts) (owner_entity : ℕ)
    (cast_direction_2d : Vec2) (cutoff : ℚ) (entity : ℕ) : Bool :=
  match Collisions.get collisions owner_entity entity with
  | some contacts =>
    let same_order := owner_entity == contacts.entity1
    contacts.manifolds.any fun manifold =>
      !manifold.contacts.isEmpty &&
        (let manifold_normal :=
          if same_order then manifold.normal2 else manifold.normal1
         decide (cutoff < Vec2.dot manifold_normal cast_direction_2d))
  | none => false

/-- `TnuaProximitySensorOutput`, as constructed by both backends. -/
structure TnuaProximitySensorOutput where
  entity : ℕ
  proximity : ℚ
  normal : Vec3
  entity_linvel : Vec3
  entity_angvel : Vec3
deriving DecidableEq

/-- `TnuaProximitySensor`: the configuration fields the backends read, plus
the mutable output. -/
structure TnuaProximitySensor where
  cast_origin : Vec3
  cast_direction : Vec3
  cast_range : ℚ
  intersection_match_prevention_cutoff : ℚ
  output : Option TnuaProximitySensorOutput
deriving DecidableEq

/-- The local `CastResult` struct of the avian2d
`update_proximity_sensors_system` (src/avian2d/src/lib.rs lines 145-152). -/
structure CastResult where
  entity : ℕ
  proximity : ℚ
  intersection_point : Vec2
  normal : Vec3
deriving DecidableEq

/-- One row of `other_object_query` in the avian2d sensor system
(src/avian2d/src/lib.rs lines 118-123): optional kinematic data (translated
center truncated to the plane, linear velocity, angular velocity), optional
collision layers, and the ghost-platform / sensor-only flags. -/
structure OtherObjectData where
  kinematic : Option (Vec2 × Vec2 × ℚ)
  collision_layers : Option CollisionLayers
  is_ghost : Bool
  is_sensor : Bool
deriving DecidableEq

/-- The read-only world state the avian2d sensor system captures: the contact
set of this tick and the two component lookups. -/
structure SensorConfig where
  collisions : List Contacts
  collision_layers_query : ℕ → Option CollisionLayers
  other_object_query : ℕ → Option OtherObjectData

/-- The mutable state of the `apply_cast` closure: the candidate final output
and the ghost hits accumulated so far. -/
structure SensorState where
  final_sensor_output : Option TnuaProximitySensorOutput
  ghost_hits : List TnuaProximitySensorOutput
deriving DecidableEq

/-- The `excluded_by_collision_layers` closure inside `apply_cast`
(src/avian2d/src/lib.rs lines 236-241): both sides default when absent, and
exclusion is the negation of `interacts_with`. -/
def excluded_by_collision_layers (owner_layers entity_layers : Option CollisionLayers) :
    Bool :=
  let owner := owner_layers.getD CollisionLayers.default_value
  let entity := entity_layers.getD CollisionLayers.default_value
  !owner.interacts_with entity

/-- The `apply_cast` closure of the avian2d sensor system
(src/avian2d/src/lib.rs lines 166-254) for one candidate hit. The returned
boolean is the callback's protocol with the spatial-query pipeline: `true`
keeps the cast going, `false` stops it. In order: manifold suppression
(continue), failed entity lookup (stop), point-velocity computation (zero
velocities when kinematic data is absent), then classification as ghost
(record aside, continue), sensor-only or layer-excluded (continue), or solid
(record as final output, stop). -/
def apply_cast (cfg : SensorConfig) (owner_entity : ℕ) (cast_direction : Vec3)
    (cutoff : ℚ) (owner_layers : Option CollisionLayers)
    (has_ghost_sensor : Bool) (st : SensorState) (cast_result : CastResult) :
    SensorState × Bool :=
  if manifold_suppressed cfg.collisions owner_entity cast_direction.truncate
      cutoff cast_result.entity then
    (st, true)
  else
    match cfg.other_object_query cast_result.entity with
    | none => (st, false)
    | some data =>
      let vels : Vec3 × Vec3 :=
        match data.kinematic with
        | some (entity_translation, entity_linear_velocity, entity_angular_velocity) =>
          let entity_angvel : Vec3 := ⟨0, 0, entity_angular_velocity⟩
          let entity_linvel :=
            (entity_linear_velocity.extend 0).add
              (if 0 < entity_angvel.length_squared then
                entity_angvel.cross
                  ((cast_result.intersection_point.sub entity_translation).extend 0)
              else Vec3.zero)
          (entity_linvel, entity_angvel)
        | none => (Vec3.zero, Vec3.zero)
      let sensor_output : TnuaProximitySensorOutput :=
        { entity := cast_result.entity
          proximity := cast_result.proximity
          normal := cast_result.normal
          entity_linvel := vels.1
          entity_angvel := vels.2 }
      if data.is_ghost then
        ({ st with
            ghost_hits :=
              if has_ghost_sensor then st.ghost_hits ++ [sensor_output]
              else st.ghost_hits },
          true)
      else if data.is_sensor ||
          excluded_by_collision_layers owner_layers data.collision_layers then
        (st, true)
      else
        ({ st with final_sensor_output := some sensor_output }, false)

/-- The spatial-query pipeline calling `apply_cast` for each candidate hit in
`hits` (delivered nearest first) until the callback returns `false`. -/
def run_cast_hits (cfg : SensorConfig) (owner_entity : ℕ)
    (cast_direction : Vec3) (cutoff : ℚ) (owner_layers : Option CollisionLayers)
    (has_ghost_sensor : Bool) : SensorState → List CastResult → SensorState
  | st, [] => st
  | st, cr :: rest =>
    let step := apply_cast cfg owner_entity cast_direction cutoff owner_layers
      has_ghost_sensor st cr
    if step.2 then
      run_cast_hits cfg owner_entity cast_direction cutoff owner_layers
        has_ghost_sensor step.1 rest
    else
      step.1

/-- The body of the `par_iter_mut` closure of the avian2d
`update_proximity_sensors_system` (src/avian2d/src/lib.rs lines 125-298) for
one sensor entity. `Disabled` returns before touching anything (even the
ghost sequence); otherwise the owner is resolved through the subservient
back-reference, the ghost sequence (when attached) is rebuilt from scratch,
the candidate hits are folded through `apply_cast`, and the sensor output is
overwritten with the final result. -/
def update_proximity_sensor_entity (cfg : SensorConfig) (entity : ℕ)
    (sensor : TnuaProximitySensor)
    (ghost_sensor : Option (List TnuaProximitySensorOutput))
    (subservient : Option ℕ) (tnua_toggle : Option TnuaToggle)
    (hits : List CastResult) :
    TnuaProximitySensor × Option (List TnuaProximitySensorOutput) :=
  match tnua_toggle.getD TnuaToggle.default with
  | .Disabled => (sensor, ghost_sensor)
  | .SenseOnly | .Enabled =>
    let owner_entity := subservient.getD entity
    let owner_layers := cfg.collision_layers_query owner_entity
    let final := run_cast_hits cfg owner_entity sensor.cast_direction
      sensor.intersection_match_prevention_cutoff owner_layers
      ghost_sensor.isSome { final_sensor_output := none, ghost_hits := [] } hits
    ({ sensor with output := final.final_sensor_output },
      ghost_sensor.map fun _ => final.ghost_hits)

/-- The local `CastResult` of the rapier2d sensor system
(src/src/backend_rapier2d.rs lines 53-57). -/
structure RapierCastResult where
  entity : ℕ
  proximity : ℚ
  normal : Vec2
deriving DecidableEq

/-- The output computation of the rapier2d `update_proximity_sensors_system`
(src/src/backend_rapier2d.rs lines 90-117) for one entity: the engine returns
at most one (nearest) cast hit; the hit entity's velocity is looked up as
(linvel, angvel) and `linvel` is used directly as `entity_linvel`, without any
point-velocity correction (the code carries a TODO acknowledging this). -/
def rapier_sensor_output (velocity_query : ℕ → Option (Vec2 × ℚ))
    (cast_result : Option RapierCastResult) : Option TnuaProximitySensorOutput :=
  match cast_result with
  | some cr =>
    let vels : Vec3 × Vec3 :=
      match velocity_query cr.entity with
      | some (linvel, angvel) => (linvel.extend 0, ⟨0, 0, angvel⟩)
      | none => (Vec3.zero, Vec3.zero)
    some
      { entity := cr.entity
        proximity := cr.proximity
        normal := cr.normal.extend 0
        entity_linvel := vels.1
        entity_angvel := vels.2 }
  | none => none

/-- Claim-side definition, following the words of the spec: the velocity of a
body at contact point `point` is its translational velocity plus the angular
velocity (about the out-of-plane axis) cross the vector from the body's
center to the point. -/
def point_velocity (v : Vec2) (omega : ℚ) (center point : Vec2) : Vec3 :=
  (v.extend 0).add ((Vec3.mk 0 0 omega).cross ((point.sub center).extend 0))

/-- A candidate hit passing every filter of the avian2d cast: not suppressed
by a contact manifold, queryable, not a ghost platform, not a sensor-only
body, and not excluded by collision layers. -/
def passes_filters (cfg : SensorConfig) (owner_entity : ℕ)
    (cast_direction : Vec3) (cutoff : ℚ) (owner_layers : Option CollisionLayers)
    (cr : CastResult) : Prop :=
  manifold_suppressed cfg.collisions owner_entity cast_direction.truncate cutoff
      cr.entity = false ∧
    ∃ d, cfg.other_object_query cr.entity = some d ∧ d.is_ghost = false ∧
      d.is_sensor = false ∧
      excluded_by_collision_layers owner_layers d.collision_layers = false

theorem apply_cast_passes_records (cfg : SensorConfig) (owner_entity : ℕ)
    (cast_direction : Vec3) (cutoff : ℚ) (owner_layers : Option CollisionLayers)
    (has_ghost_sensor : Bool) (st : SensorState) (cr : CastResult)
    (h : passes_filters cfg owner_entity cast_direction cutoff owner_layers cr) :
    ∃ out, apply_cast cfg owner_entity cast_direction cutoff owner_layers
        has_ghost_sensor st cr = ({ st with final_sensor_output := some out }, false) ∧
      out.entity = cr.entity ∧ out.proximity = cr.proximity ∧ out.normal = cr.normal := by
  obtain ⟨hsup, d, hq, hghost, hsens, hexcl⟩ := h
  unfold apply_cast
  rw [hsup, hq]
  simp only [Bool.false_eq_true, if_false, hghost, hsens, hexcl, Bool.or_self]
  exact ⟨_, rfl, rfl, rfl, rfl⟩

theorem apply_cast_ghost_records (cfg : SensorConfig) (owner_entity : ℕ)
    (cast_direction : Vec3) (cutoff : ℚ) (owner_layers : Option CollisionLayers)
    (st : SensorState) (cr : CastResult) (d : OtherObjectData)
    (hsup : manifold_suppressed cfg.collisions owner_entity
      cast_direction.truncate cutoff cr.entity = false)
    (hq : cfg.other_object_query cr.entity = some d)
    (hghost : d.is_ghost = true) :
    ∃ out, apply_cast cfg owner_entity cast_direction cutoff owner_layers true
        st cr = ({ st with ghost_hits := st.ghost_hits ++ [out] }, true) ∧
      out.entity = cr.entity ∧ out.proximity = cr.proximity := by
  unfold apply_cast
  rw [hsup, hq]
  simp only [Bool.false_eq_true, if_false, hghost, if_true]
  exact ⟨_, rfl, rfl, rfl⟩

theorem apply_cast_ghost_nonblocking (cfg : SensorConfig) (owner_entity : ℕ)
    (cast_direction : Vec3) (cutoff : ℚ) (owner_layers : Option CollisionLayers)
    (has_ghost_sensor : Bool) (st : SensorState) (cr : CastResult)
    (d : OtherObjectData)
    (hq : cfg.other_object_query cr.entity = some d)
    (hghost : d.is_ghost = true) :
    (apply_cast cfg owner_entity cast_direction cutoff owner_layers
      has_ghost_sensor st cr).2 = true ∧
    (apply_cast cfg owner_entity cast_direction cutoff owner_layers
      has_ghost_sensor st cr).1.final_sensor_output = st.final_sensor_output := by
  unfold apply_cast
  cases hsup : manifold_suppressed cfg.collisions owner_entity
      cast_direction.truncate cutoff cr.entity
  · rw [hq]
    simp only [Bool.false_eq_true, if_false, hghost, if_true]
    exact ⟨trivial, trivial⟩
  · simp only [if_true]
    exact ⟨trivial, trivial⟩

/-- C9: for every enabled or sense-only entity carrying tracker state, the
tracker updater overwrites the tracker wholesale with the transform-derived
translation and rotation, the engine linear velocity lifted to three
components with the out-of-plane component zero, the angular velocity as a
three-component vector whose only possibly non-zero component is the
out-of-plane axis, and the global gravity vector; the rapier2d backend does
the same for the three fields its (older) tracker struct has. -/
theorem C9_tracker_wholesale_overwrite (gravity : Vec2) (e : TrackerEntity)
    (h : e.tnua_toggle.getD TnuaToggle.default ≠ TnuaToggle.Disabled) :
    (update_rigid_body_tracker_entity gravity e).tracker =
      { translation := e.transform_translation
        rotation := e.transform_rotation
        velocity := ⟨e.linear_velocity.x, e.linear_velocity.y, 0⟩
        angvel := ⟨0, 0, e.angular_velocity⟩
        gravity := ⟨gravity.x, gravity.y, 0⟩ } ∧
    ∀ linvel angvel, rapier_update_rigid_body_tracker gravity linvel angvel =
      { velocity := ⟨linvel.x, linvel.y, 0⟩
        angvel := ⟨0, 0, angvel⟩
        gravity := ⟨gravity.x, gravity.y, 0⟩ } := by
  refine ⟨?_, fun linvel angvel => rfl⟩
  unfold update_rigid_body_tracker_entity
  cases htog : e.tnua_toggle.getD TnuaToggle.default with
  | Disabled => exact absurd htog h
  | SenseOnly => rfl
  | Enabled => rfl

/-- Witness for C9 at a concrete entity with no toggle component. -/
theorem C9_tracker_wholesale_overwrite_witness :
    (update_rigid_body_tracker_entity ⟨0, -10⟩
        { transform_translation := ⟨1, 2, 0⟩
          transform_rotation := ⟨0, 0, 0, 1⟩
          linear_velocity := ⟨3, 4⟩
          angular_velocity := 5
          tracker :=
            { translation := Vec3.zero, rotation := ⟨0, 0, 0, 1⟩
              velocity := Vec3.zero, angvel := Vec3.zero, gravity := Vec3.zero }
          tnua_toggle := none }).tracker =
      { translation := ⟨1, 2, 0⟩
        rotation := ⟨0, 0, 0, 1⟩
        velocity := ⟨3, 4, 0⟩
        angvel := ⟨0, 0, 5⟩
        gravity := ⟨0, -10, 0⟩ } ∧
    rapier_update_rigid_body_tracker ⟨0, -10⟩ ⟨3, 4⟩ 5 =
      { velocity := ⟨3, 4, 0⟩, angvel := ⟨0, 0, 5⟩, gravity := ⟨0, -10, 0⟩ } := by
  have h := C9_tracker_wholesale_overwrite ⟨0, -10⟩
    { transform_translation := ⟨1, 2, 0⟩
      transform_rotation := ⟨0, 0, 0, 1⟩
      linear_velocity := ⟨3, 4⟩
      angular_velocity := 5
      tracker :=
        { translation := Vec3.zero, rotation := ⟨0, 0, 0, 1⟩
          velocity := Vec3.zero, angvel := Vec3.zero, gravity := Vec3.zero }
      tnua_toggle := none } (by decide)
  exact ⟨h.1, h.2 ⟨3, 4⟩ 5⟩

/-- C10: an entity with no TnuaToggle component is treated by the tracker
updater, the sensor updater and the motor applier exactly as one with
TnuaToggle::Enabled (all three call `unwrap_or_default()` and the default is
Enabled): the resulting tracker is the same, the sensor update is the same,
and the motor applier takes the Enabled arm in both cases. -/
theorem C10_missing_toggle_defaults_to_enabled :
    (∀ (gravity : Vec2) (e : TrackerEntity),
      (update_rigid_body_tracker_entity gravity
        { e with tnua_toggle := none }).tracker =
      (update_rigid_body_tracker_entity gravity
        { e with tnua_toggle := some TnuaToggle.Enabled }).tracker) ∧
    (∀ (cfg : SensorConfig) (entity : ℕ) (sensor : TnuaProximitySensor)
      (ghost_sensor : Option (List TnuaProximitySensorOutput))
      (subservient : Option ℕ) (hits : List CastResult),
      update_proximity_sensor_entity cfg entity sensor ghost_sensor subservient
        none hits =
      update_proximity_sensor_entity cfg entity sensor ghost_sensor subservient
        (some TnuaToggle.Enabled) hits) ∧
    (∀ (m : MotorEntity) (rest : List MotorEntity),
      apply_motors_system ({ m with tnua_toggle := none } :: rest) =
        apply_motor_enabled { m with tnua_toggle := none } ::
          apply_motors_system rest ∧
      apply_motors_system ({ m with tnua_toggle := some TnuaToggle.Enabled } :: rest) =
        apply_motor_enabled { m with tnua_toggle := some TnuaToggle.Enabled } ::
          apply_motors_system rest) :=
  ⟨fun _ _ => rfl, fun _ _ _ _ _ _ => rfl, fun _ _ => ⟨rfl, rfl⟩⟩

/-- A motor command with no finite channel (all four channels are the
"no command" sentinel). -/
def motor_no_command : TnuaMotor :=
  ⟨⟨⟨Vec3.zero, false⟩, ⟨Vec3.zero, false⟩⟩, ⟨⟨Vec3.zero, false⟩, ⟨Vec3.zero, false⟩⟩⟩

/-- A sense-only entity with a stale external torque of 5. -/
def senseonly_entity : MotorEntity :=
  { motor := motor_no_command
    linear_velocity := ⟨1, 1⟩
    angular_velocity := 2
    mass := 1
    inertia := 1
    external_force := ⟨3, 3⟩
    external_torque := 5
    tnua_toggle := some TnuaToggle.SenseOnly }

/-- Counterexample to C5 as stated: a SenseOnly entity with a stale external
torque of 5 keeps that torque after the motor applier runs (only the external
force is reset), so "external force and external torque are both zero" fails. -/
theorem C5_counterexample :
    (apply_motors_system [senseonly_entity]).map MotorEntity.external_torque = [5] ∧
    ¬ (apply_motors_system [senseonly_entity]).map MotorEntity.external_torque = [0] := by
  decide

/-- C5 (amended): for an entity with TnuaToggle::SenseOnly, the tracker and
the sensor are refreshed exactly as for Enabled; when the motor applier
reaches such an entity (it is at the head of the remaining iteration), it
zeroes its external force, leaves its external torque, linear velocity and
angular velocity unchanged, and returns from the whole system, leaving every
later entity untouched. -/
theorem C5_senseonly_amended (gravity : Vec2) (e : TrackerEntity)
    (m : MotorEntity) (cfg : SensorConfig) (entity : ℕ)
    (sensor : TnuaProximitySensor)
    (ghost_sensor : Option (List TnuaProximitySensorOutput))
    (subservient : Option ℕ) (hits : List CastResult)
    (rest : List MotorEntity)
    (he : e.tnua_toggle = some TnuaToggle.SenseOnly)
    (hm : m.tnua_toggle = some TnuaToggle.SenseOnly) :
    (update_rigid_body_tracker_entity gravity e).tracker =
      (update_rigid_body_tracker_entity gravity
        { e with tnua_toggle := some TnuaToggle.Enabled }).tracker ∧
    update_proximity_sensor_entity cfg entity sensor ghost_sensor subservient
        (some TnuaToggle.SenseOnly) hits =
      update_proximity_sensor_entity cfg entity sensor ghost_sensor subservient
        (some TnuaToggle.Enabled) hits ∧
    apply_motors_system (m :: rest) =
      { m with external_force := Vec2.zero } :: rest := by
  have he2 : e.tnua_toggle.getD TnuaToggle.default = TnuaToggle.SenseOnly := by
    rw [he]; rfl
  have hm2 : m.tnua_toggle.getD TnuaToggle.default = TnuaToggle.SenseOnly := by
    rw [hm]; rfl
  refine ⟨?_, rfl, ?_⟩
  · unfold update_rigid_body_tracker_entity
    rw [he2]
    rfl
  · simp only [apply_motors_system, hm2]

/-- Witness for C5 (amended) at concrete inputs. -/
theorem C5_senseonly_amended_witness :
    (update_rigid_body_tracker_entity ⟨0, -10⟩
        { transform_translation := ⟨1, 2, 0⟩
          transform_rotation := ⟨0, 0, 0, 1⟩
          linear_velocity := ⟨3, 4⟩
          angular_velocity := 5
          tracker :=
            { translation := Vec3.zero, rotation := ⟨0, 0, 0, 1⟩
              velocity := Vec3.zero, angvel := Vec3.zero, gravity := Vec3.zero }
          tnua_toggle := some TnuaToggle.SenseOnly }).tracker =
      (update_rigid_body_tracker_entity ⟨0, -10⟩
        { transform_translation := ⟨1, 2, 0⟩
          transform_rotation := ⟨0, 0, 0, 1⟩
          linear_velocity := ⟨3, 4⟩
          angular_velocity := 5
          tracker :=
            { translation := Vec3.zero, rotation := ⟨0, 0, 0, 1⟩
              velocity := Vec3.zero, angvel := Vec3.zero, gravity := Vec3.zero }
          tnua_toggle := some TnuaToggle.Enabled }).tracker ∧
    apply_motors_system [senseonly_entity] =
      [{ senseonly_entity with external_force := Vec2.zero }] :=
  have h := C5_senseonly_amended ⟨0, -10⟩
    { transform_translation := ⟨1, 2, 0⟩
      transform_rotation := ⟨0, 0, 0, 1⟩
      linear_velocity := ⟨3, 4⟩
      angular_velocity := 5
      tracker :=
        { translation := Vec3.zero, rotation := ⟨0, 0, 0, 1⟩
          velocity := Vec3.zero, angvel := Vec3.zero, gravity := Vec3.zero }
      tnua_toggle := some TnuaToggle.SenseOnly }
    senseonly_entity ⟨[], fun _ => none, fun _ => none⟩ 0
    ⟨Vec3.zero, ⟨0, -1, 0⟩, 2, 1 / 2, none⟩ none none [] [] rfl rfl
  ⟨h.1, h.2.2⟩

/-- First disabled entity of the C6 failing input, with a stale force. -/
def disabled_entity_one : MotorEntity :=
  { motor := motor_no_command
    linear_velocity := ⟨1, 0⟩
    angular_velocity := 0
    mass := 1
    inertia := 1
    external_force := ⟨1, 1⟩
    external_torque := 0
    tnua_toggle := some TnuaToggle.Disabled }

/-- Second disabled entity of the C6 failing input, with a stale force. -/
def disabled_entity_two : MotorEntity :=
  { motor := motor_no_command
    linear_velocity := ⟨0, 1⟩
    angular_velocity := 0
    mass := 1
    inertia := 1
    external_force := ⟨2, 2⟩
    external_torque := 0
    tnua_toggle := some TnuaToggle.Disabled }

/-- A disabled entity for the tracker system, with a stale tracker. -/
def disabled_tracker_entity : TrackerEntity :=
  { transform_translation := ⟨7, 8, 0⟩
    transform_rotation := ⟨0, 0, 0, 1⟩
    linear_velocity := ⟨3, 4⟩
    angular_velocity := 5
    tracker :=
      { translation := ⟨100, 100, 100⟩, rotation := ⟨0, 0, 0, 1⟩
        velocity := ⟨9, 9, 9⟩, angvel := ⟨9, 9, 9⟩, gravity := ⟨9, 9, 9⟩ }
    tnua_toggle := some TnuaToggle.Disabled }

/-- A previous sensor output left over from an earlier tick. -/
def stale_output : TnuaProximitySensorOutput :=
  ⟨9, 1, ⟨0, 1, 0⟩, Vec3.zero, Vec3.zero⟩

/-- A sensor carrying a stale output. -/
def stale_sensor : TnuaProximitySensor :=
  ⟨Vec3.zero, ⟨0, -1, 0⟩, 2, 1 / 2, some stale_output⟩

/-- An empty world for the sensor system: no contacts, no lookups succeed. -/
def cfg_empty : SensorConfig := ⟨[], fun _ => none, fun _ => none⟩

/-- C6: evaluation at the failing input. The tracker and sensor updaters do
skip a Disabled entity (stale values retained), but the motor applier's
Disabled arm executes `return`, exiting the whole system at the first
Disabled entity: the second Disabled entity keeps its stale external force
(2, 2), so "its external force is exactly zero" fails for it. -/
theorem C6_disabled_second_force_not_zeroed :
    apply_motors_system [disabled_entity_one, disabled_entity_two] =
      [{ disabled_entity_one with external_force := Vec2.zero },
        disabled_entity_two] ∧
    (apply_motors_system [disabled_entity_one, disabled_entity_two]).map
        MotorEntity.external_force = [Vec2.zero, ⟨2, 2⟩] ∧
    ¬ (apply_motors_system [disabled_entity_one, disabled_entity_two]).map
        MotorEntity.external_force = [Vec2.zero, Vec2.zero] ∧
    update_rigid_body_tracker_entity ⟨0, -10⟩ disabled_tracker_entity =
      disabled_tracker_entity ∧
    update_proximity_sensor_entity cfg_empty 0 stale_sensor
        (some [stale_output]) none (some TnuaToggle.Disabled)
        [⟨9, 1, ⟨0, 0⟩, ⟨0, 1, 0⟩⟩] =
      (stale_sensor, some [stale_output]) := by
  refine ⟨rfl, rfl, by decide, rfl, rfl⟩

/-- A sense-only entity sitting before an enabled one in iteration order. -/
def senseonly_blocker : MotorEntity :=
  { motor := motor_no_command
    linear_velocity := ⟨0, 0⟩
    angular_velocity := 0
    mass := 1
    inertia := 1
    external_force := ⟨4, 4⟩
    external_torque := 0
    tnua_toggle := some TnuaToggle.SenseOnly }

/-- An enabled entity whose motor has exactly one finite channel: a linear
boost of (1, 2, 9) (the planar component is (1, 2)). -/
def enabled_boost_entity : MotorEntity :=
  { motor :=
      ⟨⟨⟨⟨1, 2, 9⟩, true⟩, ⟨Vec3.zero, false⟩⟩,
        ⟨⟨Vec3.zero, false⟩, ⟨Vec3.zero, false⟩⟩⟩
    linear_velocity := ⟨10, 10⟩
    angular_velocity := 3
    mass := 2
    inertia := 2
    external_force := ⟨7, 7⟩
    external_torque := 6
    tnua_toggle := some TnuaToggle.Enabled }

/-- C7: evaluation at the failing input. Per entity, the Enabled body does
gate each channel on its own finiteness: with only `lin.boost` finite it adds
exactly the planar component (1, 2) to the linear velocity and leaves force,
angular velocity and torque untouched. But at system level the claim fails:
an enabled entity that comes after a sense-only (or disabled) entity is never
processed, because that arm executes `return`, exiting the whole system - its
finite boost is not applied. -/
theorem C7_finite_boost_skipped_after_blocker :
    apply_motors_system [senseonly_blocker, enabled_boost_entity] =
      [{ senseonly_blocker with external_force := Vec2.zero },
        enabled_boost_entity] ∧
    enabled_boost_entity.motor.lin.boost.finite = true ∧
    (apply_motor_enabled enabled_boost_entity).linear_velocity =
      enabled_boost_entity.linear_velocity.add
        enabled_boost_entity.motor.lin.boost.val.truncate ∧
    (apply_motor_enabled enabled_boost_entity).linear_velocity = ⟨11, 12⟩ ∧
    ¬ (apply_motor_enabled enabled_boost_entity).linear_velocity =
      enabled_boost_entity.linear_velocity ∧
    (apply_motor_enabled enabled_boost_entity).external_force =
      enabled_boost_entity.external_force ∧
    (apply_motor_enabled enabled_boost_entity).angular_velocity =
      enabled_boost_entity.angular_velocity ∧
    (apply_motor_enabled enabled_boost_entity).external_torque =
      enabled_boost_entity.external_torque := by
  have hv : (apply_motor_enabled enabled_boost_entity).linear_velocity =
      (⟨11, 12⟩ : Vec2) := by
    norm_num [apply_motor_enabled, enabled_boost_entity, Vec2.add, Vec3.truncate]
  refine ⟨rfl, rfl, rfl, hv, ?_, rfl, rfl, rfl⟩
  rw [hv]
  decide

theorem run_cast_hits_cons_continue (cfg : SensorConfig) (owner_entity : ℕ)
    (cast_direction : Vec3) (cutoff : ℚ) (owner_layers : Option CollisionLayers)
    (has_ghost_sensor : Bool) (st st' : SensorState) (cr : CastResult)
    (rest : List CastResult)
    (h : apply_cast cfg owner_entity cast_direction cutoff owner_layers
      has_ghost_sensor st cr = (st', true)) :
    run_cast_hits cfg owner_entity cast_direction cutoff owner_layers
        has_ghost_sensor st (cr :: rest) =
      run_cast_hits cfg owner_entity cast_direction cutoff owner_layers
        has_ghost_sensor st' rest := by
  simp only [run_cast_hits, h, if_true]

theorem run_cast_hits_cons_stop (cfg : SensorConfig) (owner_entity : ℕ)
    (cast_direction : Vec3) (cutoff : ℚ) (owner_layers : Option CollisionLayers)
    (has_ghost_sensor : Bool) (st st' : SensorState) (cr : CastResult)
    (rest : List CastResult)
    (h : apply_cast cfg owner_entity cast_direction cutoff owner_layers
      has_ghost_sensor st cr = (st', false)) :
    run_cast_hits cfg owner_entity cast_direction cutoff owner_layers
        has_ghost_sensor st (cr :: rest) = st' := by
  simp only [run_cast_hits, h]
  rfl

theorem update_proximity_sensor_entity_not_disabled (cfg : SensorConfig)
    (entity : ℕ) (sensor : TnuaProximitySensor)
    (ghost_sensor : Option (List TnuaProximitySensorOutput))
    (subservient : Option ℕ) (tnua_toggle : Option TnuaToggle)
    (hits : List CastResult)
    (htog : tnua_toggle.getD TnuaToggle.default ≠ TnuaToggle.Disabled) :
    update_proximity_sensor_entity cfg entity sensor ghost_sensor subservient
        tnua_toggle hits =
      ({ sensor with
          output := (run_cast_hits cfg (subservient.getD entity)
            sensor.cast_direction sensor.intersection_match_prevention_cutoff
            (cfg.collision_layers_query (subservient.getD entity))
            ghost_sensor.isSome ⟨none, []⟩ hits).final_sensor_output },
        ghost_sensor.map fun _ => (run_cast_hits cfg (subservient.getD entity)
          sensor.cast_direction sensor.intersection_match_prevention_cutoff
          (cfg.collision_layers_query (subservient.getD entity))
          ghost_sensor.isSome ⟨none, []⟩ hits).ghost_hits) := by
  unfold update_proximity_sensor_entity
  cases h : tnua_toggle.getD TnuaToggle.default with
  | Disabled => exact absurd h htog
  | SenseOnly => rfl
  | Enabled => rfl

/-- C1: for a proximity cast whose candidate hits (delivered nearest-first by
the spatial query, all within the cast range) all pass the filters - not
manifold-suppressed, queryable, not a ghost platform, not a sensor-only body,
not excluded by collision layers - the recorded sensor output is the
candidate with the smallest distance along the cast direction; in particular
with two passing bodies at d1 < d2 the output is the one at d1. -/
theorem C1_nearest_passing_hit_recorded (cfg : SensorConfig) (entity : ℕ)
    (sensor : TnuaProximitySensor)
    (ghost_sensor : Option (List TnuaProximitySensorOutput))
    (tnua_toggle : Option TnuaToggle) (cr1 : CastResult)
    (rest : List CastResult)
    (htog : tnua_toggle.getD TnuaToggle.default ≠ TnuaToggle.Disabled)
    (hpass : ∀ cr ∈ cr1 :: rest, passes_filters cfg entity
      sensor.cast_direction sensor.intersection_match_prevention_cutoff
      (cfg.collision_layers_query entity) cr)
    (hnear : ∀ cr ∈ rest, cr1.proximity < cr.proximity)
    (hrange : cr1.proximity < sensor.cast_range) :
    ∃ out,
      (update_proximity_sensor_entity cfg entity sensor ghost_sensor none
        tnua_toggle (cr1 :: rest)).1.output = some out ∧
      out.entity = cr1.entity ∧ out.proximity = cr1.proximity := by
  obtain ⟨out, heq, hent, hprox, -⟩ := apply_cast_passes_records cfg entity
    sensor.cast_direction sensor.intersection_match_prevention_cutoff
    (cfg.collision_layers_query entity) ghost_sensor.isSome
    ⟨none, []⟩ cr1 (hpass cr1 (List.mem_cons_self cr1 rest))
  refine ⟨out, ?_, hent, hprox⟩
  rw [update_proximity_sensor_entity_not_disabled cfg entity sensor ghost_sensor
    none tnua_toggle (cr1 :: rest) htog]
  simp only [Option.getD_none] at heq ⊢
  rw [run_cast_hits_cons_stop cfg entity sensor.cast_direction
    sensor.intersection_match_prevention_cutoff
    (cfg.collision_layers_query entity) ghost_sensor.isSome
    ⟨none, []⟩ _ cr1 rest heq]

/-- A motionless solid body: kinematic data present, no layers (defaults
apply), not a ghost, not a sensor. -/
def solid_object_still : OtherObjectData :=
  ⟨some (⟨0, -1⟩, ⟨0, 0⟩, 0), none, false, false⟩

/-- A world with two solid bodies, entities 1 and 2, and no contacts. -/
def cfg_two_solids : SensorConfig :=
  ⟨[], fun _ => none, fun n => if n == 1 || n == 2 then some solid_object_still else none⟩

/-- A downward probe sensor with range 2 and cutoff 1/2, no previous output. -/
def probe_sensor : TnuaProximitySensor := ⟨Vec3.zero, ⟨0, -1, 0⟩, 2, 1 / 2, none⟩

def hit_entity_one : CastResult := ⟨1, 1, ⟨0, -1⟩, ⟨0, 1, 0⟩⟩

def hit_entity_two : CastResult := ⟨2, 3 / 2, ⟨0, -3 / 2⟩, ⟨0, 1, 0⟩⟩

/-- Witness for C1: two passing bodies at distances 1 and 3/2 within range 2;
the recorded output is entity 1 at distance 1. -/
theorem C1_nearest_passing_hit_recorded_witness :
    ∃ out,
      (update_proximity_sensor_entity cfg_two_solids 0 probe_sensor none none
        none [hit_entity_one, hit_entity_two]).1.output = some out ∧
      out.entity = hit_entity_one.entity ∧
      out.proximity = hit_entity_one.proximity := by
  refine C1_nearest_passing_hit_recorded cfg_two_solids 0 probe_sensor none
    none hit_entity_one [hit_entity_two] (by decide) ?_ ?_ ?_
  · intro cr hcr
    have : cr = hit_entity_one ∨ cr = hit_entity_two := by
      simpa using hcr
    rcases this with h | h <;> subst h <;>
      exact ⟨rfl, solid_object_still, rfl, rfl, rfl, rfl⟩
  · intro cr hcr
    have : cr = hit_entity_two := by simpa using hcr
    subst this
    norm_num [hit_entity_one, hit_entity_two]
  · norm_num [hit_entity_one, probe_sensor]

/-- C2: if the owner and a candidate hit entity E are in contact this tick
and some manifold between them has at least one contact point and a normal
(the one facing the owner: `normal2` when the owner is `entity1` of the
stored pair, `normal1` otherwise) whose dot product with the cast direction
strictly exceeds the sensor's cutoff, then E is suppressed: `apply_cast`
leaves the state untouched and returns `true` (continue), so the cast
continues past E exactly as if E had not been hit. -/
theorem C2_manifold_suppression_skips_hit (cfg : SensorConfig)
    (owner_entity E : ℕ) (cast_direction : Vec3) (cutoff : ℚ)
    (owner_layers : Option CollisionLayers) (has_ghost_sensor : Bool)
    (contacts : Contacts) (manifold : ContactManifold)
    (hget : Collisions.get cfg.collisions owner_entity E = some contacts)
    (hmem : manifold ∈ contacts.manifolds)
    (hne : manifold.contacts ≠ [])
    (hdot : cutoff < Vec2.dot
      (if owner_entity == contacts.entity1 then manifold.normal2
        else manifold.normal1) cast_direction.truncate) :
    manifold_suppressed cfg.collisions owner_entity cast_direction.truncate
        cutoff E = true ∧
    ∀ (st : SensorState) (cr : CastResult) (rest : List CastResult),
      cr.entity = E →
      apply_cast cfg owner_entity cast_direction cutoff owner_layers
          has_ghost_sensor st cr = (st, true) ∧
      run_cast_hits cfg owner_entity cast_direction cutoff owner_layers
          has_ghost_sensor st (cr :: rest) =
        run_cast_hits cfg owner_entity cast_direction cutoff owner_layers
          has_ghost_sensor st rest := by
  have hsup : manifold_suppressed cfg.collisions owner_entity
      cast_direction.truncate cutoff E = true := by
    unfold manifold_suppressed
    rw [hget]
    apply List.any_eq_true.mpr
    refine ⟨manifold, hmem, ?_⟩
    simp only [Bool.and_eq_true, Bool.not_eq_true', decide_eq_true_eq]
    constructor
    · cases hc : manifold.contacts with
      | nil => exact absurd hc hne
      | cons a l => rfl
    · exact hdot
  refine ⟨hsup, fun st cr rest hcr => ?_⟩
  have happ : apply_cast cfg owner_entity cast_direction cutoff owner_layers
      has_ghost_sensor st cr = (st, true) := by
    unfold apply_cast
    rw [hcr, hsup]
    rfl
  exact ⟨happ, run_cast_hits_cons_continue cfg owner_entity cast_direction
    cutoff owner_layers has_ghost_sensor st st cr rest happ⟩

/-- An existing contact between owner 0 and entity 1, whose manifold has one
contact point and an owner-facing normal (0, -1). -/
def c2_contacts : Contacts := ⟨0, 1, [⟨[⟨0, 0⟩], ⟨0, 1⟩, ⟨0, -1⟩⟩]⟩

/-- A world where owner 0 is already in contact with solid entity 1. -/
def cfg_in_contact : SensorConfig :=
  ⟨[c2_contacts], fun _ => none,
    fun n => if n == 1 then some solid_object_still else none⟩

/-- Witness for C2: the downward cast direction (0, -1) dotted with the
manifold normal (0, -1) gives 1 > cutoff 1/2, so the hit on entity 1 is
suppressed and the cast continues as if the hit list had not contained it. -/
theorem C2_manifold_suppression_skips_hit_witness :
    manifold_suppressed cfg_in_contact.collisions 0
        (Vec3.truncate ⟨0, -1, 0⟩) (1 / 2) 1 = true ∧
    apply_cast cfg_in_contact 0 ⟨0, -1, 0⟩ (1 / 2) none false ⟨none, []⟩
        hit_entity_one = (⟨none, []⟩, true) ∧
    run_cast_hits cfg_in_contact 0 ⟨0, -1, 0⟩ (1 / 2) none false ⟨none, []⟩
        [hit_entity_one] =
      run_cast_hits cfg_in_contact 0 ⟨0, -1, 0⟩ (1 / 2) none false
        ⟨none, []⟩ [] := by
  have h := C2_manifold_suppression_skips_hit cfg_in_contact 0 1 ⟨0, -1, 0⟩
    (1 / 2) none false c2_contacts ⟨[⟨0, 0⟩], ⟨0, 1⟩, ⟨0, -1⟩⟩ rfl
    (by decide) (by decide)
    (by norm_num [c2_contacts, Vec2.dot, Vec3.truncate])
  exact ⟨h.1, (h.2 ⟨none, []⟩ hit_entity_one [] rfl).1,
    (h.2 ⟨none, []⟩ hit_entity_one [] rfl).2⟩

/-- C3: with a (non-suppressed, queryable) ghost platform at distance d1 and
a passing solid body at distance d2 > d1 on the same cast, the sensor output
records the solid body at d2 while the rebuilt ghost sequence contains
exactly the ghost platform entry; moreover a ghost-platform hit never
terminates the cast and never touches the candidate final output, whatever
the state. -/
theorem C3_ghost_platform_nonblocking (cfg : SensorConfig) (entity : ℕ)
    (sensor : TnuaProximitySensor)
    (prev_ghost : List TnuaProximitySensorOutput)
    (tnua_toggle : Option TnuaToggle) (crG crS : CastResult)
    (dG : OtherObjectData)
    (htog : tnua_toggle.getD TnuaToggle.default ≠ TnuaToggle.Disabled)
    (hGsup : manifold_suppressed cfg.collisions entity
      sensor.cast_direction.truncate
      sensor.intersection_match_prevention_cutoff crG.entity = false)
    (hGq : cfg.other_object_query crG.entity = some dG)
    (hGg : dG.is_ghost = true)
    (hS : passes_filters cfg entity sensor.cast_direction
      sensor.intersection_match_prevention_cutoff
      (cfg.collision_layers_query entity) crS)
    (hd : crG.proximity < crS.proximity)
    (hr : crS.proximity < sensor.cast_range) :
    (∃ outS outG,
      (update_proximity_sensor_entity cfg entity sensor (some prev_ghost) none
        tnua_toggle [crG, crS]).1.output = some outS ∧
      outS.entity = crS.entity ∧ outS.proximity = crS.proximity ∧
      (update_proximity_sensor_entity cfg entity sensor (some prev_ghost) none
        tnua_toggle [crG, crS]).2 = some [outG] ∧
      outG.entity = crG.entity ∧ outG.proximity = crG.proximity) ∧
    (∀ (has_ghost_sensor : Bool) (st : SensorState) (cr : CastResult)
      (d : OtherObjectData), cfg.other_object_query cr.entity = some d →
      d.is_ghost = true →
      (apply_cast cfg entity sensor.cast_direction
        sensor.intersection_match_prevention_cutoff
        (cfg.collision_layers_query entity) has_ghost_sensor st cr).2 = true ∧
      (apply_cast cfg entity sensor.cast_direction
        sensor.intersection_match_prevention_cutoff
        (cfg.collision_layers_query entity) has_ghost_sensor st cr).1.final_sensor_output =
        st.final_sensor_output) := by
  constructor
  · obtain ⟨outG, heqG, hGent, hGprox⟩ := apply_cast_ghost_records cfg entity
      sensor.cast_direction sensor.intersection_match_prevention_cutoff
      (cfg.collision_layers_query entity) ⟨none, []⟩ crG dG hGsup hGq hGg
    obtain ⟨outS, heqS, hSent, hSprox, -⟩ := apply_cast_passes_records cfg
      entity sensor.cast_direction sensor.intersection_match_prevention_cutoff
      (cfg.collision_layers_query entity) true ⟨none, [outG]⟩ crS hS
    have hrun : run_cast_hits cfg entity sensor.cast_direction
        sensor.intersection_match_prevention_cutoff
        (cfg.collision_layers_query entity) true ⟨none, []⟩ [crG, crS] =
        ⟨some outS, [outG]⟩ := by
      rw [run_cast_hits_cons_continue cfg entity sensor.cast_direction
        sensor.intersection_match_prevention_cutoff
        (cfg.collision_layers_query entity) true ⟨none, []⟩ ⟨none, [outG]⟩
        crG [crS] (by simpa using heqG)]
      exact run_cast_hits_cons_stop cfg entity sensor.cast_direction
        sensor.intersection_match_prevention_cutoff
        (cfg.collision_layers_query entity) true ⟨none, [outG]⟩
        ⟨some outS, [outG]⟩ crS [] (by simpa using heqS)
    refine ⟨outS, outG, ?_, hSent, hSprox, ?_, hGent, hGprox⟩ <;>
        rw [update_proximity_sensor_entity_not_disabled cfg entity sensor
          (some prev_ghost) none tnua_toggle [crG, crS] htog] <;>
        simp only [Option.getD_none, Option.isSome_some] <;>
        rw [hrun]
    rfl
  · intro has_ghost_sensor st cr d hq hg
    exact apply_cast_ghost_nonblocking cfg entity sensor.cast_direction
      sensor.intersection_match_prevention_cutoff
      (cfg.collision_layers_query entity) has_ghost_sensor st cr d hq hg

/-- A motionless ghost platform. -/
def ghost_object : OtherObjectData :=
  ⟨some (⟨0, -1⟩, ⟨0, 0⟩, 0), none, true, false⟩

/-- A world with a ghost platform (entity 3) and a solid body (entity 2). -/
def cfg_ghost_and_solid : SensorConfig :=
  ⟨[], fun _ => none,
    fun n =>
      if n == 3 then some ghost_object
      else if n == 2 then some solid_object_still else none⟩

/-- The ghost platform hit at distance 1, nearer than the solid at 3/2. -/
def hit_ghost : CastResult := ⟨3, 1, ⟨0, -1⟩, ⟨0, 1, 0⟩⟩

/-- Witness for C3: ghost platform at distance 1, solid body at 3/2, range 2;
the output records the solid body and the ghost sequence records the ghost. -/
theorem C3_ghost_platform_nonblocking_witness :
    ∃ outS outG,
      (update_proximity_sensor_entity cfg_ghost_and_solid 0 probe_sensor
        (some []) none none [hit_ghost, hit_entity_two]).1.output = some outS ∧
      outS.entity = hit_entity_two.entity ∧
      outS.proximity = hit_entity_two.proximity ∧
      (update_proximity_sensor_entity cfg_ghost_and_solid 0 probe_sensor
        (some []) none none [hit_ghost, hit_entity_two]).2 = some [outG] ∧
      outG.entity = hit_ghost.entity ∧ outG.proximity = hit_ghost.proximity :=
  (C3_ghost_platform_nonblocking cfg_ghost_and_solid 0 probe_sensor [] none
    hit_ghost hit_entity_two ghost_object (by decide) rfl rfl rfl
    ⟨rfl, solid_object_still, rfl, rfl, rfl, rfl⟩
    (by norm_num [hit_ghost, hit_entity_two])
    (by norm_num [hit_entity_two, probe_sensor])).1

/-- A solid body with no kinematic components attached. -/
def solid_object_no_kinematics : OtherObjectData := ⟨none, none, false, false⟩

/-- A world where entity 1 is not queryable at all and entity 2 is a solid
body without kinematic data. -/
def cfg_unqueryable_then_solid : SensorConfig :=
  ⟨[], fun _ => none,
    fun n => if n == 2 then some solid_object_no_kinematics else none⟩

/-- Counterexample to C8 as stated: with a candidate whose entity lookup
fails at distance 1 in front of a passing solid at distance 3/2, the cast
stops (the callback returns `false`) and the final output is `none` - the
cast does not continue to the solid candidate, which alone would have been
recorded; and a queryable candidate that merely lacks kinematic components
is not skipped at all - it is recorded as the final output with zero
velocities. -/
theorem C8_counterexample :
    (update_proximity_sensor_entity cfg_unqueryable_then_solid 0 probe_sensor
      none none none [hit_entity_one, hit_entity_two]).1.output = none ∧
    (update_proximity_sensor_entity cfg_unqueryable_then_solid 0 probe_sensor
      none none none [hit_entity_two]).1.output.map
        TnuaProximitySensorOutput.entity = some 2 ∧
    (update_proximity_sensor_entity cfg_unqueryable_then_solid 0 probe_sensor
      none none none [hit_entity_two]).1.output.map
        TnuaProximitySensorOutput.entity_linvel = some Vec3.zero :=
  ⟨rfl, rfl, rfl⟩

/-- C8 (amended): a candidate hit whose entity lookup fails entirely stops
the cast without recording an output (`apply_cast` returns `false`); a
candidate that is queryable but lacks kinematic data is not skipped - it is
treated as having zero linear and angular velocity and classified normally,
and when it is a passing solid it is recorded as the final output. -/
theorem C8_missing_data_semantics (cfg : SensorConfig) (owner_entity : ℕ)
    (cast_direction : Vec3) (cutoff : ℚ) (owner_layers : Option CollisionLayers)
    (has_ghost_sensor : Bool) (st : SensorState) (cr : CastResult)
    (hnosup : manifold_suppressed cfg.collisions owner_entity
      cast_direction.truncate cutoff cr.entity = false) :
    (cfg.other_object_query cr.entity = none →
      apply_cast cfg owner_entity cast_direction cutoff owner_layers
        has_ghost_sensor st cr = (st, false)) ∧
    (∀ d, cfg.other_object_query cr.entity = some d → d.kinematic = none →
      d.is_ghost = false → d.is_sensor = false →
      excluded_by_collision_layers owner_layers d.collision_layers = false →
      apply_cast cfg owner_entity cast_direction cutoff owner_layers
          has_ghost_sensor st cr =
        ({ st with final_sensor_output := some (TnuaProximitySensorOutput.mk
            cr.entity cr.proximity cr.normal Vec3.zero Vec3.zero) },
          false)) := by
  constructor
  · intro hq
    unfold apply_cast
    rw [hnosup, hq]
    rfl
  · intro d hq hk hghost hsens hexcl
    unfold apply_cast
    rw [hnosup, hq]
    simp only [Bool.false_eq_true, if_false, hk, hghost, hsens, hexcl,
      Bool.or_self]

/-- Witness for C8 (amended): at the concrete world of the counterexample,
the unqueryable candidate yields `(st, false)` and the kinematic-less solid
candidate is recorded with zero velocities. -/
theorem C8_missing_data_semantics_witness :
    apply_cast cfg_unqueryable_then_solid 0 ⟨0, -1, 0⟩ (1 / 2) none false
      ⟨none, []⟩ hit_entity_one = (⟨none, []⟩, false) ∧
    apply_cast cfg_unqueryable_then_solid 0 ⟨0, -1, 0⟩ (1 / 2) none false
      ⟨none, []⟩ hit_entity_two =
      (⟨some ⟨2, 3 / 2, ⟨0, 1, 0⟩, Vec3.zero, Vec3.zero⟩, []⟩, false) :=
  ⟨(C8_missing_data_semantics cfg_unqueryable_then_solid 0 ⟨0, -1, 0⟩ (1 / 2)
      none false ⟨none, []⟩ hit_entity_one rfl).1 rfl,
    (C8_missing_data_semantics cfg_unqueryable_then_solid 0 ⟨0, -1, 0⟩ (1 / 2)
      none false ⟨none, []⟩ hit_entity_two rfl).2
      solid_object_no_kinematics rfl rfl rfl rfl rfl⟩

/-- The rapier2d backend's velocity lookup for the C4 scenario: entity 7 has
linear velocity (0, 0) and angular velocity 1. -/
def c4_velocity_query : ℕ → Option (Vec2 × ℚ) :=
  fun n => if n == 7 then some (⟨0, 0⟩, 1) else none

/-- The rapier2d cast hit on the spinning entity 7. -/
def c4_cast_result : RapierCastResult := ⟨7, 1, ⟨0, 1⟩⟩

/-- The same body for the avian2d backend: center (0, 0), linear velocity
(0, 0), angular velocity 1, solid. -/
def spinning_object : OtherObjectData :=
  ⟨some (⟨0, 0⟩, ⟨0, 0⟩, 1), none, false, false⟩

/-- A world containing only the spinning solid entity 7. -/
def cfg_spinning : SensorConfig :=
  ⟨[], fun _ => none, fun n => if n == 7 then some spinning_object else none⟩

/-- The avian2d cast hit on entity 7 with intersection point (1, 0). -/
def c4_hit : CastResult := ⟨7, 1, ⟨1, 0⟩, ⟨0, 1, 0⟩⟩

/-- C4 at the failing input: for a hit on a body with v = (0, 0), angular
velocity 1, center (0, 0) and contact point (1, 0), the claimed point
velocity v + omega cross r is (0, 1, 0) - which is what the avian2d backend
computes - but the rapier2d backend reports entity_linvel = (0, 0, 0): it
copies the translational velocity and ignores the angular term (its own TODO
comment admits the point-velocity computation is missing). -/
theorem C4_rapier_ignores_angular_velocity :
    (rapier_sensor_output c4_velocity_query (some c4_cast_result)).map
      TnuaProximitySensorOutput.entity_linvel = some Vec3.zero ∧
    point_velocity ⟨0, 0⟩ 1 ⟨0, 0⟩ ⟨1, 0⟩ = ⟨0, 1, 0⟩ ∧
    ((apply_cast cfg_spinning 0 ⟨0, -1, 0⟩ (1 / 2) none false ⟨none, []⟩
      c4_hit).1.final_sensor_output).map
        TnuaProximitySensorOutput.entity_linvel = some ⟨0, 1, 0⟩ ∧
    (Vec3.zero : Vec3) ≠ ⟨0, 1, 0⟩ := by
  refine ⟨rfl, ?_, ?_, by decide⟩
  · norm_num [point_velocity, Vec2.extend, Vec2.sub, Vec3.cross, Vec3.add]
  · norm_num [apply_cast, manifold_suppressed, Collisions.get, cfg_spinning,
      spinning_object, c4_hit, excluded_by_collision_layers,
      CollisionLayers.interacts_with, CollisionLayers.default_value,
      Vec3.length_squared, Vec3.cross, Vec2.extend, Vec2.sub, Vec3.add,
      Vec3.zero, Vec2.dot, Vec3.truncate, List.find?]

end Tnua
